import Mathlib

/-
Verification of the discord-player core against its specification.

The definitions below are shallow embeddings of the TypeScript sources:
  * src/Structures/Track.ts        (markdown escaping, Track.durationMS)
  * src/VoiceInterface/VoiceUtils.ts (connect / join / cache)
  * the Player class (search resolver chain, createQueue, emit)

JS strings are modelled as `List Char` (wrapped into `String` at the API
boundary), JS numbers occurring as non-negative integers as `Nat`,
promise results that may be `null`/`undefined` (after `.catch(noop)`) as
`Option`, and thrown exceptions as `Except`.  Object identity (for "the
same instance" claims) is modelled by explicit numeric ids allocated
from a counter threaded through the state.
-/

set_option maxHeartbeats 1000000

namespace DiscordPlayer

/-! ## Character constants used by the markdown escaper -/

/-- The escape character `\`. -/
def bsl : Char := '\\'

/-- The backtick character (code point 96). -/
def btk : Char := Char.ofNat 96

/-- The `*` marker. -/
def star : Char := '*'

/-- The `_` marker. -/
def uscore : Char := '_'

/-- The `~` marker. -/
def tilde : Char := '~'

/-- The `|` marker. -/
def pipeCh : Char := '|'

/-! ## Markdown escaping (src/Structures/Track.ts lines 25-160)

Each `escapeXyz` function in the source is a JS `String.replace` with a
global regex.  We embed each one as a left-to-right scanner over
`List Char`, reproducing the regex engine's behaviour: at each position
the pattern is tried (lookbehind = the previous character of the
original string, lookahead = the upcoming characters); on a match the
matched characters are consumed and the replacement emitted; otherwise
one character is copied and scanning advances. -/

/-- Scanner for `escapeInlineCode`:
`text.replace(/(?<=^|[^`])``?(?=[^`]|$)/g, m => m.length === 2 ? '\\`\\`' : '\\`')`.
`prev` is the character before the current position (`none` at the start). -/
def goInlineCode : Option Char → List Char → List Char
  | _, [] => []
  | prev, [c] => if c = btk ∧ prev ≠ some btk then [bsl, btk] else [c]
  | prev, [c, d] =>
    if c = btk ∧ prev ≠ some btk then
      if d = btk then [bsl, btk, bsl, btk]
      else [bsl, btk] ++ goInlineCode (some btk) [d]
    else c :: goInlineCode (some c) [d]
  | prev, c :: d :: e :: rest =>
    if c = btk ∧ prev ≠ some btk then
      if d = btk then
        if e = btk then c :: goInlineCode (some c) (d :: e :: rest)
        else [bsl, btk, bsl, btk] ++ goInlineCode (some btk) (e :: rest)
      else [bsl, btk] ++ goInlineCode (some btk) (d :: e :: rest)
    else c :: goInlineCode (some c) (d :: e :: rest)

/-- `escapeInlineCode` from the source. -/
def escapeInlineCode (t : List Char) : List Char := goInlineCode none t

/-- Scanner for `escapeCodeBlock`: `text.replace(new RegExp("```", "g"), '\\`\\`\\`')`. -/
def goCodeBlock : List Char → List Char
  | [] => []
  | [c] => [c]
  | [c, d] => [c, d]
  | c :: d :: e :: rest =>
    if c = btk ∧ d = btk ∧ e = btk then [bsl, btk, bsl, btk, bsl, btk] ++ goCodeBlock rest
    else c :: goCodeBlock (d :: e :: rest)

/-- `escapeCodeBlock` from the source. -/
def escapeCodeBlock (t : List Char) : List Char := goCodeBlock t

/-- One pass of `escapeItalic` for a marker character `mark` (the source runs
this once with `*` and once with `_`):
`text.replace(/(?<=^|[^*])\*([^*]|\*\*|$)/g, ...)` with a counter `i` that is
incremented only when the captured group is the double marker; the
replacement is `\*${m}` for a single captured character or end-of-input,
and alternates `\***` / `**\*` for the double-marker group. -/
def italicPass (mark : Char) : Nat → Option Char → List Char → List Char
  | _, _, [] => []
  | _, prev, [c] => if c = mark ∧ prev ≠ some mark then [bsl, mark] else [c]
  | i, prev, [c, d] =>
    if c = mark ∧ prev ≠ some mark then
      if d ≠ mark then [bsl, mark, d]
      else c :: italicPass mark i (some c) [d]
    else c :: italicPass mark i (some c) [d]
  | i, prev, c :: d :: e :: rest =>
    if c = mark ∧ prev ≠ some mark then
      if d ≠ mark then
        bsl :: mark :: d :: italicPass mark i (some d) (e :: rest)
      else
        if e = mark then
          (if (i + 1) % 2 = 1 then [bsl, mark, mark, mark] else [mark, mark, bsl, mark])
            ++ italicPass mark (i + 1) (some mark) rest
        else c :: italicPass mark i (some c) (d :: e :: rest)
    else c :: italicPass mark i (some c) (d :: e :: rest)

/-- `escapeItalic` from the source: the `*` pass followed by the `_` pass,
each with its own counter starting at 0. -/
def escapeItalic (t : List Char) : List Char :=
  italicPass uscore 0 none (italicPass star 0 none t)

/-- One pass of `escapeBold` / `escapeUnderline` for marker `mark`:
`text.replace(/\*\*(\*)?/g, ...)` with a counter incremented only when the
optional third marker is captured; replacement `\*\*` without capture,
alternating `*\*\*` / `\*\**` with capture. -/
def doublePass (mark : Char) : Nat → List Char → List Char
  | _, [] => []
  | _, [c] => [c]
  | i, [c, d] =>
    if c = mark ∧ d = mark then [bsl, mark, bsl, mark]
    else c :: doublePass mark i [d]
  | i, c :: d :: e :: rest =>
    if c = mark then
      if d = mark then
        if e = mark then
          (if (i + 1) % 2 = 1 then [mark, bsl, mark, bsl, mark] else [bsl, mark, bsl, mark, mark])
            ++ doublePass mark (i + 1) rest
        else [bsl, mark, bsl, mark] ++ doublePass mark i (e :: rest)
      else c :: doublePass mark i (d :: e :: rest)
    else c :: doublePass mark i (d :: e :: rest)

/-- `escapeBold` from the source. -/
def escapeBold (t : List Char) : List Char := doublePass star 0 t

/-- `escapeUnderline` from the source. -/
def escapeUnderline (t : List Char) : List Char := doublePass uscore 0 t

/-- Scanner for `escapeStrikethrough`: `text.replace(new RegExp('~~', "g"), '\\~\\~')`. -/
def goStrike : List Char → List Char
  | [] => []
  | [c] => [c]
  | c :: d :: rest =>
    if c = tilde ∧ d = tilde then [bsl, tilde, bsl, tilde] ++ goStrike rest
    else c :: goStrike (d :: rest)

/-- `escapeStrikethrough` from the source. -/
def escapeStrikethrough (t : List Char) : List Char := goStrike t

/-- `escapeSpoiler` from the source: `text.replace(new RegExp('||', "g"), '\\|\\|')`.
The pattern `'||'` is the regex `||` — an alternation of empty patterns —
which matches the empty string at every position, so the replacement
`\|\|` is inserted before every character and at the end of the string. -/
def escapeSpoiler : List Char → List Char
  | [] => [bsl, pipeCh, bsl, pipeCh]
  | c :: rest => bsl :: pipeCh :: bsl :: pipeCh :: c :: escapeSpoiler rest

/-- The `EscapeMarkdownOptions` object of the source (all fields default
to `true` there; we pass them explicitly). -/
structure EscapeMarkdownOptions where
  codeBlock : Bool
  inlineCode : Bool
  bold : Bool
  italic : Bool
  underline : Bool
  strikethrough : Bool
  spoiler : Bool
  codeBlockContent : Bool
  inlineCodeContent : Bool
deriving DecidableEq, Repr

/-- The default options: every field `true`. -/
def defaultOptions : EscapeMarkdownOptions :=
  ⟨true, true, true, true, true, true, true, true, true⟩

/-- `String.split('```')` on the code-block fence, JS semantics
(`"".split` gives `[""]`, separators are found left to right, non-overlapping). -/
def splitCodeBlock : List Char → List (List Char)
  | [] => [[]]
  | [c] => [[c]]
  | [c, d] => [[c, d]]
  | c :: d :: e :: rest =>
    if c = btk ∧ d = btk ∧ e = btk then [] :: splitCodeBlock rest
    else
      match splitCodeBlock (d :: e :: rest) with
      | h :: t => (c :: h) :: t
      | [] => [[c]]

/-- `text.split(/(?<=^|[^`])`(?=[^`]|$)/g)`: split at single backticks that
are not adjacent to another backtick (the matched backtick is consumed). -/
def goSplitInline : Option Char → List Char → List (List Char)
  | _, [] => [[]]
  | prev, c :: rest =>
    if c = btk ∧ prev ≠ some btk ∧ rest.head? ≠ some btk then
      [] :: goSplitInline (some c) rest
    else
      match goSplitInline (some c) rest with
      | h :: t => (c :: h) :: t
      | [] => [[c]]

/-- Split used by the `inlineCodeContent: false` branch of `escapeMarkdown`. -/
def splitInline (t : List Char) : List (List Char) := goSplitInline none t

/-- The final sequence of per-marker passes of `escapeMarkdown` (reached when
both `codeBlockContent` and `inlineCodeContent` are `true`):
each enabled marker's escape function applied in source order. -/
def escapeMarkdownPasses (o : EscapeMarkdownOptions) (t0 : List Char) : List Char :=
  let t1 := if o.inlineCode then escapeInlineCode t0 else t0
  let t2 := if o.codeBlock then escapeCodeBlock t1 else t1
  let t3 := if o.italic then escapeItalic t2 else t2
  let t4 := if o.bold then escapeBold t3 else t3
  let t5 := if o.underline then escapeUnderline t4 else t4
  let t6 := if o.strikethrough then escapeStrikethrough t5 else t5
  if o.spoiler then escapeSpoiler t6 else t6

/-- The `inlineCodeContent` layer of `escapeMarkdown`.  When
`inlineCodeContent` is `false` the text is split at inline-code backticks,
the pieces at odd index (except a trailing piece) are kept verbatim and the
others recursively escaped; the recursive call passes
`{codeBlock, bold, italic, underline, strikethrough, spoiler}`, so
`inlineCode` and both content flags revert to their default `true`. -/
def escapeMarkdownInlineLayer (o : EscapeMarkdownOptions) (t : List Char) : List Char :=
  if o.inlineCodeContent then escapeMarkdownPasses o t
  else
    let pieces := splitInline t
    List.intercalate (if o.inlineCode then [bsl, btk] else [btk])
      (pieces.enum.map fun p =>
        if p.1 % 2 = 1 ∧ p.1 ≠ pieces.length - 1 then p.2
        else escapeMarkdownPasses
          ⟨o.codeBlock, true, o.bold, o.italic, o.underline, o.strikethrough, o.spoiler,
            true, true⟩ p.2)

/-- `escapeMarkdown` on character lists.  When `codeBlockContent` is `false`
the text is split at ```` ``` ```` fences, odd-index pieces (except a
trailing piece) kept verbatim, the rest recursively escaped with
`{inlineCode, bold, italic, underline, strikethrough, spoiler,
inlineCodeContent}` (so `codeBlock` and `codeBlockContent` revert to
`true`), joined with the escaped or plain fence depending on `codeBlock`. -/
def escapeMarkdownList (o : EscapeMarkdownOptions) (t : List Char) : List Char :=
  if o.codeBlockContent then escapeMarkdownInlineLayer o t
  else
    let pieces := splitCodeBlock t
    List.intercalate
      (if o.codeBlock then [bsl, btk, bsl, btk, bsl, btk] else [btk, btk, btk])
      (pieces.enum.map fun p =>
        if p.1 % 2 = 1 ∧ p.1 ≠ pieces.length - 1 then p.2
        else escapeMarkdownInlineLayer
          ⟨true, o.inlineCode, o.bold, o.italic, o.underline, o.strikethrough, o.spoiler,
            true, o.inlineCodeContent⟩ p.2)

/-- `escapeMarkdown(text, options)` from src/Structures/Track.ts. -/
def escapeMarkdown (o : EscapeMarkdownOptions) (s : String) : String :=
  String.mk (escapeMarkdownList o s.data)

/-! ## Durations (src/Structures/Track.ts `get durationMS`, and the
text formatter `Util.buildTimeCode(Util.parseMS(ms))`) -/

/-- The `:` separator of time codes. -/
def colonCh : Char := ':'

/-- JS `String.split(sep)` for a one-character separator:
`"".split(sep)` is `[""]`, separators are consumed left to right. -/
def splitCh (sep : Char) : List Char → List (List Char)
  | [] => [[]]
  | c :: rest =>
    if c = sep then [] :: splitCh sep rest
    else
      match splitCh sep rest with
      | h :: t => (c :: h) :: t
      | [] => [[c]]

/-- The decimal digit character for `n < 10`. -/
def digitChar (n : Nat) : Char := Char.ofNat (48 + n)

/-- Numeric value of a decimal digit character, `none` otherwise. -/
def digitVal (c : Char) : Option Nat :=
  if 48 ≤ c.toNat ∧ c.toNat ≤ 57 then some (c.toNat - 48) else none

/-- Decimal digit characters of `n`, most significant first. -/
def natDigits (n : Nat) : List Char :=
  if n < 10 then [digitChar n]
  else natDigits (n / 10) ++ [digitChar (n % 10)]
termination_by n
decreasing_by simp_wf; omega

/-- Value of the maximal leading run of decimal digits, starting from `acc`. -/
def parseDigitsGo (acc : Nat) : List Char → Nat
  | [] => acc
  | c :: rest =>
    match digitVal c with
    | some d => parseDigitsGo (acc * 10 + d) rest
    | none => acc

/-- JS `parseInt`, restricted to the inputs arising here (no sign, no
leading whitespace): `none` models `NaN`; otherwise the value of the
maximal leading run of decimal digits. -/
def parseIntJS (l : List Char) : Option Nat :=
  match l with
  | [] => none
  | c :: rest => if (digitVal c).isSome then some (parseDigitsGo 0 (c :: rest)) else none

/-- The `times` helper inside `Track.durationMS`: the loop computes
`tn = n ^ t` and the result is `t <= 0 ? 1000 : tn * 1000`. -/
def times (n t : Nat) : Nat :=
  let tn := n ^ t
  if t ≤ 0 then 1000 else tn * 1000

/-- `.map((m, i) => parseInt(m) * times(60, i)).reduce((a, c) => a + c, 0)`
over the reversed components, with `NaN` (`none`) propagating through the sum. -/
def sumTimes : Nat → List (List Char) → Option Nat
  | _, [] => some 0
  | i, c :: rest =>
    match parseIntJS c, sumTimes (i + 1) rest with
    | some v, some s => some (v * times 60 i + s)
    | _, _ => none

/-- `Track.durationMS` from src/Structures/Track.ts: split the duration
text on `":"`, reverse, weigh the i-th component (from the right) by
`times(60, i)` and sum. -/
def durationMS (duration : List Char) : Option Nat :=
  sumTimes 0 (splitCh colonCh duration).reverse

/-- Zero-pad a component to two digits. -/
def pad2 (n : Nat) : List Char :=
  if n < 10 then digitChar 0 :: natDigits n else natDigits n

/-- Modelled from the spec: the milliseconds-to-text duration formatter
`Util.buildTimeCode(Util.parseMS(ms))` — src/utils/Util.ts is not among
the given sources.  Spec §4.1/§4.3: "numeric millisecond durations are
converted to the `H:MM:SS`-style text"; hours unpadded, minutes and
seconds zero-padded to two digits, sub-second precision truncated. -/
def formatDurationMS (ms : Nat) : List Char :=
  let total := ms / 1000
  natDigits (total / 3600) ++ colonCh :: (pad2 (total / 60 % 60) ++ colonCh :: pad2 (total % 60))

/-! ## Track / Playlist value objects

`Track.id` (a generated snowflake) and `requestedBy` (a platform `User`)
are external concerns not referenced by any claim and are omitted.
A `Track` stores its optional playlist back-reference as the playlist's
scalar metadata (`PlaylistMeta`), breaking the `Track ↔ Playlist`
reference cycle of the source. -/

/-- Scalar fields of a `Playlist` (everything except its track list). -/
structure PlaylistMeta where
  title : String
  description : String
  thumbnail : String
  ptype : String
  source : String
  authorName : String
  authorUrl : String
  pid : String
  url : String
deriving DecidableEq, Repr

/-- The `RawTrackData` consumed by the `Track` constructor. -/
structure RawTrackData where
  title : String
  author : String
  url : String
  thumbnail : String
  duration : String
  views : Nat
  playlist : Option PlaylistMeta
  source : String
deriving DecidableEq, Repr

/-- A constructed `Track` (fields set by `Track._patch`). -/
structure Track where
  title : String
  author : String
  url : String
  thumbnail : String
  duration : String
  views : Nat
  playlist : Option PlaylistMeta
  source : String
deriving DecidableEq, Repr

/-- `new Track(player, data)` → `_patch`: the title is escaped with
`escapeMarkdown(data.title ?? "")` (default options); the other fields are
copied; the source tag is kept in the raw bag. -/
def mkTrack (d : RawTrackData) : Track :=
  { title := escapeMarkdown defaultOptions d.title
    author := d.author
    url := d.url
    thumbnail := d.thumbnail
    duration := d.duration
    views := d.views
    playlist := d.playlist
    source := d.source }

/-- A `Playlist` (scalar metadata plus its ordered track list). -/
structure Playlist where
  meta : PlaylistMeta
  tracks : List Track
deriving DecidableEq, Repr

/-- `{ playlist: Playlist | null, tracks: Track[] }`. -/
structure PlayerSearchResult where
  playlist : Option Playlist
  tracks : List Track
deriving DecidableEq, Repr

/-- `{ playlist: null, tracks: [] }`. -/
def emptyResult : PlayerSearchResult := { playlist := none, tracks := [] }

/-! ## Query types

src/types/types.ts is not among the given sources; the `QueryType` tags
are opaque distinct strings, one per source kind named in spec §4.1. -/

namespace QueryType

/-- Automatic query classification. -/
def AUTO : String := "auto"

/-- Single video link. -/
def YOUTUBE_VIDEO : String := "youtube_video"

/-- Free-text video search. -/
def YOUTUBE_SEARCH : String := "youtube_search"

/-- Video playlist link. -/
def YOUTUBE_PLAYLIST : String := "youtube_playlist"

/-- SoundCloud track link. -/
def SOUNDCLOUD_TRACK : String := "soundcloud_track"

/-- SoundCloud free-text search. -/
def SOUNDCLOUD_SEARCH : String := "soundcloud_search"

/-- SoundCloud playlist link. -/
def SOUNDCLOUD_PLAYLIST : String := "soundcloud_playlist"

/-- Spotify song link. -/
def SPOTIFY_SONG : String := "spotify_song"

/-- Spotify album link. -/
def SPOTIFY_ALBUM : String := "spotify_album"

/-- Spotify playlist link. -/
def SPOTIFY_PLAYLIST : String := "spotify_playlist"

end QueryType

/-! ## The resolver (extractor) chain of `Player.search`

An extractor's `handle(query)` resolves to
`{ data: RawItem[], playlist?: RawPlaylist } | null`; the promise result
after `await` is modelled as `Option ExtractorData`.  The items carry a
numeric millisecond duration which `search` converts with
`Util.buildTimeCode(Util.parseMS(m.duration))` before constructing the
`Track`. -/

/-- One raw item of an extractor result. -/
structure ChainTrackData where
  title : String
  author : String
  url : String
  thumbnail : String
  duration : Nat
  views : Nat
  source : String
deriving DecidableEq, Repr

/-- `{ data: RawItem[], playlist?: RawPlaylist }` as returned by
`extractor.handle(query)`; the optional raw playlist is spread directly
into the `Playlist` constructor, so it is modelled as `PlaylistMeta`. -/
structure ExtractorData where
  data : List ChainTrackData
  playlist : Option PlaylistMeta
deriving DecidableEq, Repr

/-- A registered `ExtractorModel`: a name (the registry key), the
`validate` capability check and the `handle` resolution call. -/
structure ExtractorModel where
  name : String
  validate : String → Bool
  handle : String → Option ExtractorData

/-- Track construction inside the two extractor branches of `search`:
`new Track(this, {...m, duration: Util.buildTimeCode(Util.parseMS(m.duration)), playlist})`. -/
def mkChainTrack (pl : Option PlaylistMeta) (m : ChainTrackData) : Track :=
  mkTrack
    { title := m.title
      author := m.author
      url := m.url
      thumbnail := m.thumbnail
      duration := String.mk (formatDurationMS m.duration)
      views := m.views
      playlist := pl
      source := m.source }

/-- The shared success body of both extractor branches of `search`:
construct the `Playlist` first with an empty track list (if the extractor
returned one), construct every `Track` with its back-reference set to it,
then back-fill the playlist's `tracks`. -/
def buildChainResult (d : ExtractorData) : PlayerSearchResult :=
  let plMeta := d.playlist
  let tracks := d.data.map (mkChainTrack plMeta)
  { playlist := plMeta.map (fun m => { meta := m, tracks := tracks }), tracks := tracks }

/-- The `for (const [_, extractor] of this.extractors)` loop of `search`,
instrumented with the list of extractor names on which `handle` was
invoked (second component).  `options.blockExtractor` is tested at the
top of every iteration, so when it is set the loop exits before touching
any extractor.  A validated extractor whose result is `null` or has an
empty `data` array is passed over and the chain continues. -/
def chainSearchTr (q : String) (block : Bool) :
    List ExtractorModel → Option ExtractorData × List String
  | [] => (none, [])
  | e :: rest =>
    if block then (none, [])
    else if e.validate q then
      match e.handle q with
      | some d =>
        if d.data.length ≠ 0 then (some d, [e.name])
        else
          let p := chainSearchTr q block rest
          (p.1, e.name :: p.2)
      | none =>
        let p := chainSearchTr q block rest
        (p.1, e.name :: p.2)
    else chainSearchTr q block rest

/-! ## The built-in source handlers of `Player.search`

Each external collaborator call (`ytdl.getInfo`, `YouTube.search`,
`soundcloud.search`, `soundcloud.getSongInfo`, `Spotify().getData`,
`soundcloud.getPlaylist`, `YouTube.getPlaylist`) is an awaited network
call whose failure is caught (`.catch(Util.noop)` giving `undefined`,
or `.catch(() => [])`); the response for the query at hand is therefore
a field of a `SearchEnv` environment, with `none` / `[]` modelling the
failed call.  `QueryResolver.resolve` (src/utils/QueryResolver.ts, not
among the given sources) is, per spec §4.1, a pure deterministic
classification of the query string; it is the `resolveQuery` field. -/

/-- `info.videoDetails` of a `ytdl.getInfo` response (the fields used). -/
structure YtdlInfo where
  title : String
  author : String
  video_url : String
  thumbnail : String
  viewCount : Nat
  lengthSeconds : Nat
deriving DecidableEq, Repr

/-- One video of a `YouTube.search` / playlist `videos` response. -/
structure YtVideo where
  title : String
  channelName : String
  url : String
  thumbnail : String
  views : Nat
  durationFormatted : String
deriving DecidableEq, Repr

/-- One item of a `soundcloud.search(query, "track")` response. -/
structure SCSearchItem where
  url : String
deriving DecidableEq, Repr

/-- A `soundcloud.getSongInfo` response (the fields used). -/
structure SCSong where
  title : String
  url : String
  thumbnail : String
  authorName : String
  duration : Nat
  playCount : Nat
deriving DecidableEq, Repr

/-- A Spotify single-song `getData` response (the fields used). -/
structure SpotifySong where
  name : String
  artistName : String
  url : String
  thumbnail : String
  duration_ms : Nat
deriving DecidableEq, Repr

/-- One item of a Spotify playlist/album `getData` response (for a
playlist the fields live under `m.track`, for an album under `m`; the
same fields are extracted either way). -/
structure SpotifyItem where
  name : String
  artistName : String
  url : String
  thumbnail : String
  duration_ms : Nat
deriving DecidableEq, Repr

/-- A Spotify playlist/album `getData` response (the fields used). -/
structure SpotifyList where
  name : String
  description : String
  thumbnail : String
  listType : String
  artistName : String
  artistUrl : String
  ownerName : String
  ownerUrl : String
  id : String
  url : String
  items : List SpotifyItem
deriving DecidableEq, Repr

/-- A `soundcloud.getPlaylist` response (the fields used). -/
structure SCPlaylist where
  title : String
  description : String
  thumbnail : String
  authorName : String
  authorProfile : String
  id : String
  url : String
  tracks : List SCSong
deriving DecidableEq, Repr

/-- A `YouTube.getPlaylist` response after `fetch` (the fields used). -/
structure YtPlaylist where
  title : String
  thumbnail : String
  channelName : String
  channelUrl : String
  id : String
  url : String
  videos : List YtVideo
deriving DecidableEq, Repr

/-- The environment of one `search` call: the pure query classifier and
the responses of the external collaborators for the query at hand
(`none` / `[]` = the underlying network call failed). -/
structure SearchEnv where
  resolveQuery : String → String
  ytdlInfo : Option YtdlInfo
  ytSearch : Option (List YtVideo)
  scSearch : List SCSearchItem
  scSong : String → Option SCSong
  spotifySong : Option SpotifySong
  spotifyList : Option SpotifyList
  scPlaylist : Option SCPlaylist
  ytPlaylist : Option YtPlaylist

/-- Track built in the `YOUTUBE_VIDEO` branch. -/
def mkYtdlTrack (info : YtdlInfo) : Track :=
  mkTrack
    { title := info.title
      author := info.author
      url := info.video_url
      thumbnail := info.thumbnail
      duration := String.mk (formatDurationMS (info.lengthSeconds * 1000))
      views := info.viewCount
      playlist := none
      source := "youtube" }

/-- Track built in the `YOUTUBE_SEARCH` branch (and, with a playlist
back-reference, in the `YOUTUBE_PLAYLIST` branch). -/
def mkYtVideoTrack (pl : Option PlaylistMeta) (m : YtVideo) : Track :=
  mkTrack
    { title := m.title
      author := m.channelName
      url := m.url
      thumbnail := m.thumbnail
      duration := m.durationFormatted
      views := m.views
      playlist := pl
      source := "youtube" }

/-- Track built in the SoundCloud track/search branch. -/
def mkScTrack (t : SCSong) : Track :=
  mkTrack
    { title := t.title
      author := t.authorName
      url := t.url
      thumbnail := t.thumbnail
      duration := String.mk (formatDurationMS t.duration)
      views := t.playCount
      playlist := none
      source := "soundcloud" }

/-- Track built in the `SPOTIFY_SONG` branch. -/
def mkSpotifySongTrack (sp : SpotifySong) : Track :=
  mkTrack
    { title := sp.name
      author := sp.artistName
      url := sp.url
      thumbnail := sp.thumbnail
      duration := String.mk (formatDurationMS sp.duration_ms)
      views := 0
      playlist := none
      source := "spotify" }

/-- Track built in the Spotify playlist/album branch. -/
def mkSpotifyItemTrack (pl : PlaylistMeta) (m : SpotifyItem) : Track :=
  mkTrack
    { title := m.name
      author := m.artistName
      url := m.url
      thumbnail := m.thumbnail
      duration := String.mk (formatDurationMS m.duration_ms)
      views := 0
      playlist := some pl
      source := "spotify" }

/-- Track built in the `SOUNDCLOUD_PLAYLIST` branch. -/
def mkScPlaylistTrack (pl : PlaylistMeta) (song : SCSong) : Track :=
  mkTrack
    { title := song.title
      author := song.authorName
      url := song.url
      thumbnail := song.thumbnail
      duration := String.mk (formatDurationMS song.duration)
      views := song.playCount
      playlist := some pl
      source := "soundcloud" }

/-- The `switch (qt)` over built-in source handlers at the end of
`search`.  Every branch absorbs a failed network call (`none` / empty
list) into `{ playlist: null, tracks: [] }`; the playlist branches build
the `Playlist` first with an empty track list, construct the tracks with
their back-reference, and back-fill. -/
def fallbackSearch (env : SearchEnv) (q : String) (qt : String) : PlayerSearchResult :=
  if qt = QueryType.YOUTUBE_VIDEO then
    match env.ytdlInfo with
    | none => emptyResult
    | some info => { playlist := none, tracks := [mkYtdlTrack info] }
  else if qt = QueryType.YOUTUBE_SEARCH then
    match env.ytSearch with
    | none => emptyResult
    | some videos => { playlist := none, tracks := videos.map (mkYtVideoTrack none) }
  else if qt = QueryType.SOUNDCLOUD_TRACK ∨ qt = QueryType.SOUNDCLOUD_SEARCH then
    let result : List SCSearchItem :=
      if env.resolveQuery q = QueryType.SOUNDCLOUD_TRACK then [⟨q⟩] else env.scSearch
    if result.length = 0 then emptyResult
    else { playlist := none, tracks := result.filterMap (fun r => (env.scSong r.url).map mkScTrack) }
  else if qt = QueryType.SPOTIFY_SONG then
    match env.spotifySong with
    | none => emptyResult
    | some sp => { playlist := none, tracks := [mkSpotifySongTrack sp] }
  else if qt = QueryType.SPOTIFY_PLAYLIST ∨ qt = QueryType.SPOTIFY_ALBUM then
    match env.spotifyList with
    | none => emptyResult
    | some sp =>
      let meta : PlaylistMeta :=
        { title := sp.name
          description := sp.description
          thumbnail := sp.thumbnail
          ptype := sp.listType
          source := "spotify"
          authorName := if sp.listType ≠ "playlist" then sp.artistName else sp.ownerName
          authorUrl := if sp.listType ≠ "playlist" then sp.artistUrl else sp.ownerUrl
          pid := sp.id
          url := sp.url }
      let tracks := sp.items.map (mkSpotifyItemTrack meta)
      { playlist := some { meta := meta, tracks := tracks }, tracks := tracks }
  else if qt = QueryType.SOUNDCLOUD_PLAYLIST then
    match env.scPlaylist with
    | none => emptyResult
    | some data =>
      let meta : PlaylistMeta :=
        { title := data.title
          description := data.description
          thumbnail := data.thumbnail
          ptype := "playlist"
          source := "soundcloud"
          authorName := data.authorName
          authorUrl := data.authorProfile
          pid := data.id
          url := data.url }
      let tracks := data.tracks.map (mkScPlaylistTrack meta)
      { playlist := some { meta := meta, tracks := tracks }, tracks := tracks }
  else if qt = QueryType.YOUTUBE_PLAYLIST then
    match env.ytPlaylist with
    | none => emptyResult
    | some ytpl =>
      let meta : PlaylistMeta :=
        { title := ytpl.title
          description := ""
          thumbnail := ytpl.thumbnail
          ptype := "playlist"
          source := "youtube"
          authorName := ytpl.channelName
          authorUrl := ytpl.channelUrl
          pid := ytpl.id
          url := ytpl.url }
      let tracks := ytpl.videos.map (mkYtVideoTrack (some meta))
      { playlist := some { meta := meta, tracks := tracks }, tracks := tracks }
  else emptyResult

/-- `options.searchEngine === QueryType.AUTO ? QueryResolver.resolve(query) : options.searchEngine`. -/
def qtResolved (opts : String) (env : SearchEnv) (q : String) : String :=
  if opts = QueryType.AUTO then env.resolveQuery q else opts

/-- The search options used by `search` (the `requestedBy` user is an
external concern and omitted). -/
structure SearchOptions where
  searchEngine : String
  blockExtractor : Bool
deriving DecidableEq, Repr

/-- The part of `search` after the named-extractor branch: the extractor
chain loop, then (if nothing was returned) the built-in handlers for the
detected/declared query type.  `log0` is the handle-invocation log
accumulated by the named branch. -/
def searchAfterNamed (exts : List ExtractorModel) (q : String) (opts : SearchOptions)
    (env : SearchEnv) (log0 : List String) : PlayerSearchResult × List String :=
  let p := chainSearchTr q opts.blockExtractor exts
  match p.1 with
  | some d => (buildChainResult d, log0 ++ p.2)
  | none => (fallbackSearch env q (qtResolved opts.searchEngine env q), log0 ++ p.2)

/-- `Player.search(query, options)` for a string query, instrumented with
the list of extractor names on which `handle` was invoked.  The
`query instanceof Track` identity short-circuit and the synchronous
`PlayerError` on missing options are upstream guards outside this model.
If `options.searchEngine` names a registered extractor, that extractor is
tried first: a failed `validate` returns the empty result immediately; a
non-empty result is returned; otherwise execution falls through to the
chain loop over all registered extractors and then the built-in handlers. -/
def searchTr (exts : List ExtractorModel) (q : String) (opts : SearchOptions)
    (env : SearchEnv) : PlayerSearchResult × List String :=
  match exts.find? (fun e => e.name == opts.searchEngine) with
  | some e =>
    if e.validate q then
      match e.handle q with
      | some d =>
        if d.data.length ≠ 0 then (buildChainResult d, [e.name])
        else searchAfterNamed exts q opts env [e.name]
      | none => searchAfterNamed exts q opts env [e.name]
    else (emptyResult, [])
  | none => searchAfterNamed exts q opts env []

/-! ## VoiceUtils (src/VoiceInterface/VoiceUtils.ts)

`channel.call(...)` is the external transport-connection request; each
call yields a fresh connection, modelled by an id allocated from a
counter.  Likewise `new StreamDispatcher(conn, maxTime)` constructs a
fresh object, modelled by a dispatcher id from a second counter, so that
"the same instance" is expressible.  The second component of `connect` /
`join` is the list of channels on which a transport connection was
actually requested.  Calling with the options argument omitted
(`options = none`) hits `options.deaf` / `options.maxTime` on
`undefined`, which throws a `TypeError`, modelled as `Except.error`. -/

/-- The `{ deaf?, maxTime? }` join options object. -/
structure JoinOptions where
  deaf : Option Bool
  maxTime : Option Nat
deriving DecidableEq, Repr

/-- A live transport connection returned by `channel.call`. -/
structure VoiceConn where
  chId : String
  selfDeaf : Bool
  connId : Nat
deriving DecidableEq, Repr

/-- A `StreamDispatcher` wrapping one connection. -/
structure StreamDispatcher where
  voiceConnection : VoiceConn
  maxTime : Option Nat
  dispId : Nat
deriving DecidableEq, Repr

/-- The mutable state of a `VoiceUtils` instance: the
`Collection<Snowflake, StreamDispatcher>` cache plus the freshness
counters for connections and dispatchers. -/
structure VoiceUtilsState where
  cache : List (String × StreamDispatcher)
  nextConnId : Nat
  nextDispId : Nat
deriving DecidableEq, Repr

/-- `Collection.get`. -/
def lookupEntry {α : Type} (k : String) : List (String × α) → Option α
  | [] => none
  | p :: rest => if p.1 == k then some p.2 else lookupEntry k rest

/-- `Collection.set`: overwrite the existing entry, else append. -/
def setEntry {α : Type} (k : String) (v : α) : List (String × α) → List (String × α)
  | [] => [(k, v)]
  | p :: rest => if p.1 == k then (k, v) :: rest else p :: setEntry k v rest

/-- `VoiceUtils.join(channel, options?)`: evaluates
`channel.call({ selfDeaf: Boolean(options.deaf) })` — reading
`options.deaf` throws a `TypeError` when `options` is omitted, before
`channel.call` is invoked. -/
def VoiceUtils.join (st : VoiceUtilsState) (chId : String) (options : Option JoinOptions) :
    Except String (VoiceConn × VoiceUtilsState) × List String :=
  match options with
  | none => (Except.error "TypeError: Cannot read properties of undefined", [])
  | some o =>
    (Except.ok
      ({ chId := chId, selfDeaf := o.deaf.getD false, connId := st.nextConnId },
        { st with nextConnId := st.nextConnId + 1 }),
      [chId])

/-- `VoiceUtils.connect(channel, options?)`: awaits `join`, then
constructs a fresh `StreamDispatcher` around the new connection (reading
`options.maxTime`) and unconditionally overwrites the cache entry for
`channel.id` with it. -/
def VoiceUtils.connect (st : VoiceUtilsState) (chId : String) (options : Option JoinOptions) :
    Except String (StreamDispatcher × VoiceUtilsState) × List String :=
  match VoiceUtils.join st chId options with
  | (Except.error e, calls) => (Except.error e, calls)
  | (Except.ok (conn, st1), calls) =>
    match options with
    | none => (Except.error "TypeError: Cannot read properties of undefined", calls)
    | some o =>
      let sub : StreamDispatcher :=
        { voiceConnection := conn, maxTime := o.maxTime, dispId := st1.nextDispId }
      (Except.ok
        (sub,
          { st1 with
            nextDispId := st1.nextDispId + 1
            cache := setEntry chId sub st1.cache }),
        calls)

/-! ## `Player.createQueue` -/

/-- The `PlayerOptions & { metadata?: T }` object passed to `createQueue`
(the fields `createQueue` itself touches; the metadata payload type is
fixed to `String`, `0.08` is the rational `8/100`). -/
structure PlayerOptions where
  metadata : Option String
  volumeSmoothness : Option Rat
  ytdlOptions : Option Nat
deriving DecidableEq, Repr

/-- A constructed `Queue` (identity via `queueId`). -/
structure Queue where
  queueId : Nat
  dmGuild : String
  options : PlayerOptions
  metadata : Option String
deriving DecidableEq, Repr

/-- The part of the `Player` state touched by `createQueue`: the
`queues` collection, the freshness counter for `new Queue`, and the
player-level default `ytdlOptions`. -/
structure PlayerState where
  queues : List (String × Queue)
  nextQueueId : Nat
  playerYtdlOptions : Nat
deriving DecidableEq, Repr

/-- `Player.createQueue(dmGuild, queueInitOptions)`: return the existing
queue if the guild already has one; otherwise pull out `metadata`,
default `volumeSmoothness` to `0.08` and `ytdlOptions` to the player
options, construct the `Queue`, store it and return it. -/
def createQueue (st : PlayerState) (dmGuild : String) (opts : PlayerOptions) :
    Queue × PlayerState :=
  match lookupEntry dmGuild st.queues with
  | some q => (q, st)
  | none =>
    let meta := opts.metadata
    let opts1 : PlayerOptions :=
      { metadata := none
        volumeSmoothness := some (opts.volumeSmoothness.getD (8 / 100 : Rat))
        ytdlOptions := some (opts.ytdlOptions.getD st.playerYtdlOptions) }
    let q : Queue :=
      { queueId := st.nextQueueId, dmGuild := dmGuild, options := opts1, metadata := meta }
    (q, { st with queues := setEntry dmGuild q st.queues, nextQueueId := st.nextQueueId + 1 })

/-! ## `Player.emit` (required-events guard) -/

/-- `this.requiredEvents` of the `Player` class. -/
def requiredEvents : List String := ["error", "connectionError"]

/-- The observable outcome of one `emit` call: the returned boolean, the
arguments passed to `console.error`, the `process.emitWarning` messages,
and whether the event was dispatched through `super.emit`. -/
structure EmitOutcome where
  returned : Bool
  consoleErrors : List (List String)
  warnings : List String
  dispatched : Bool
deriving DecidableEq, Repr

/-- The warning text emitted for an unhandled required event. -/
def unhandledWarning (eventName : String) : String :=
  "[DiscordPlayerWarning] Unhandled \"" ++ eventName ++ "\" event! Events " ++
    String.intercalate ", " (requiredEvents.map (fun m => "\"" ++ m ++ "\"")) ++
    " must have event listeners!"

/-- `Player.emit(eventName, ...args)`: if the event is required and
`super.eventNames()` (the events with at least one registered listener,
given here as `eventNames`) does not contain it, log the arguments, emit
a process warning naming the event, and return `false` without
dispatching; otherwise dispatch via `super.emit`, which returns whether
the event had listeners. -/
def Player.emit (eventNames : List String) (eventName : String) (args : List String) :
    EmitOutcome :=
  if requiredEvents.contains eventName ∧ ¬ eventNames.contains eventName then
    { returned := false
      consoleErrors := [args]
      warnings := [unhandledWarning eventName]
      dispatched := false }
  else
    { returned := eventNames.contains eventName
      consoleErrors := []
      warnings := []
      dispatched := true }

/-! ## Specification-side notions used in the theorem statements -/

/-- Length of the `data` array of an extractor result (`0` for `null`). -/
def dataLen : Option ExtractorData → Nat
  | some d => d.data.length
  | none => 0

/-- An extractor "succeeds" on a query: its `validate` check passes and
its resolved `data` array is non-empty. -/
def chainSucceeds (q : String) (e : ExtractorModel) : Prop :=
  e.validate q = true ∧ dataLen (e.handle q) ≠ 0

/-- The success check is decidable (used to evaluate witnesses). -/
instance (q : String) (e : ExtractorModel) : Decidable (chainSucceeds q e) :=
  inferInstanceAs (Decidable (e.validate q = true ∧ dataLen (e.handle q) ≠ 0))

/-- The extractor data of a succeeding extractor. -/
def dataOf (q : String) (e : ExtractorModel) : ExtractorData :=
  (e.handle q).getD ⟨[], none⟩

/-- The names of the extractors of `exts` whose `validate` check passes on
`q` — the extractors whose `handle` the chain loop invokes while walking
past them. -/
def handledNames (q : String) (exts : List ExtractorModel) : List String :=
  (exts.filter (fun e => e.validate q)).map ExtractorModel.name

/-- "The underlying network call of the built-in branch selected by `qt`
failed": the corresponding environment field is `none` (a caught
rejection) or the empty list (`soundcloud.search` rejections are caught
as `[]`). -/
def builtinFails (env : SearchEnv) (q : String) (qt : String) : Prop :=
  (qt = QueryType.YOUTUBE_VIDEO ∧ env.ytdlInfo = none) ∨
  (qt = QueryType.YOUTUBE_SEARCH ∧ env.ytSearch = none) ∨
  ((qt = QueryType.SOUNDCLOUD_TRACK ∨ qt = QueryType.SOUNDCLOUD_SEARCH) ∧
    (if env.resolveQuery q = QueryType.SOUNDCLOUD_TRACK
      then env.scSong q = none else env.scSearch = [])) ∨
  (qt = QueryType.SPOTIFY_SONG ∧ env.spotifySong = none) ∨
  ((qt = QueryType.SPOTIFY_PLAYLIST ∨ qt = QueryType.SPOTIFY_ALBUM) ∧
    env.spotifyList = none) ∨
  (qt = QueryType.SOUNDCLOUD_PLAYLIST ∧ env.scPlaylist = none) ∨
  (qt = QueryType.YOUTUBE_PLAYLIST ∧ env.ytPlaylist = none)

/-- The failure condition is decidable (used to evaluate witnesses). -/
instance (env : SearchEnv) (q : String) (qt : String) : Decidable (builtinFails env q qt) := by
  unfold builtinFails
  infer_instance

/-- `true` iff the call threw (`Except.error`). -/
def throws {α : Type} : Except String α → Bool
  | Except.error _ => true
  | Except.ok _ => false

/-! ## Concrete fixtures used by witnesses and counterexamples -/

/-- A concrete raw extractor item. -/
def trackItemA : ChainTrackData :=
  ⟨"Song A", "Author A", "urlA", "thumbA", 61000, 5, "youtube"⟩

/-- A second concrete raw extractor item. -/
def trackItemB : ChainTrackData :=
  ⟨"Song B", "Author B", "urlB", "thumbB", 2000, 6, "youtube"⟩

/-- A registered extractor that validates every query but resolves to an
empty item list. -/
def extEmpty : ExtractorModel := ⟨"extEmpty", fun _ => true, fun _ => some ⟨[], none⟩⟩

/-- A registered extractor that validates every query and resolves to two
items. -/
def extTwo : ExtractorModel :=
  ⟨"extTwo", fun _ => true, fun _ => some ⟨[trackItemA, trackItemB], none⟩⟩

/-- A registered extractor that validates every query and resolves to one
item. -/
def extOne : ExtractorModel := ⟨"extOne", fun _ => true, fun _ => some ⟨[trackItemA], none⟩⟩

/-- A search environment in which every external network call fails and
automatic classification yields the free-text search kind. -/
def envNone : SearchEnv :=
  ⟨fun _ => QueryType.YOUTUBE_SEARCH, none, none, [], fun _ => none, none, none, none, none⟩

/-- A concrete cached dispatcher (id 0). -/
def dispatcher0 : StreamDispatcher := ⟨⟨"ch", false, 0⟩, none, 0⟩

/-- A voice-utils state whose cache already holds `dispatcher0` for
channel `"ch"`. -/
def voiceState0 : VoiceUtilsState := ⟨[("ch", dispatcher0)], 5, 7⟩

/-- Concrete join options. -/
def joinOptions0 : JoinOptions := ⟨none, none⟩

end DiscordPlayer

/-! # Theorems -/

namespace DiscordPlayer

/-! ## Helper lemmas: lengths of the escape passes -/

theorem len_goInlineCode (prev : Option Char) (l : List Char) :
    l.length ≤ (goInlineCode prev l).length := by
  induction prev, l using goInlineCode.induct <;> simp only [goInlineCode] <;>
    (try split_ifs) <;> (try simp_all) <;> omega

theorem len_goCodeBlock (l : List Char) : l.length ≤ (goCodeBlock l).length := by
  induction l using goCodeBlock.induct <;> simp only [goCodeBlock] <;>
    (try split_ifs) <;> (try simp_all) <;> omega

theorem len_italicPass (mark : Char) (i : Nat) (prev : Option Char) (l : List Char) :
    l.length ≤ (italicPass mark i prev l).length := by
  induction i, prev, l using italicPass.induct mark <;> simp only [italicPass] <;>
    (try split_ifs) <;> (try simp_all) <;> omega

theorem len_doublePass (mark : Char) (i : Nat) (l : List Char) :
    l.length ≤ (doublePass mark i l).length := by
  induction i, l using doublePass.induct mark <;> simp only [doublePass] <;>
    (try split_ifs) <;> (try simp_all) <;> omega

theorem len_goStrike (l : List Char) : l.length ≤ (goStrike l).length := by
  induction l using goStrike.induct <;> simp only [goStrike] <;>
    (try split_ifs) <;> (try simp_all) <;> omega

theorem len_escapeSpoiler (l : List Char) : (escapeSpoiler l).length = 5 * l.length + 4 := by
  induction l <;> simp_all [escapeSpoiler] <;> omega

/-- With the default options, escaping strictly lengthens every string:
the spoiler pass alone inserts  the four characters of an escaped `||`
at every position, including at the ends. -/
theorem escapeMarkdown_default_length (s : String) :
    s.length + 4 ≤ (escapeMarkdown defaultOptions s).length := by
  have h1 := len_goInlineCode none s.data
  have h2 := len_goCodeBlock (goInlineCode none s.data)
  have h3 := len_italicPass star 0 none (goCodeBlock (goInlineCode none s.data))
  have h4 := len_italicPass uscore 0 none
    (italicPass star 0 none (goCodeBlock (goInlineCode none s.data)))
  have h5 := len_doublePass star 0
    (italicPass uscore 0 none (italicPass star 0 none (goCodeBlock (goInlineCode none s.data))))
  have h6 := len_doublePass uscore 0
    (doublePass star 0 (italicPass uscore 0 none
      (italicPass star 0 none (goCodeBlock (goInlineCode none s.data)))))
  have h7 := len_goStrike
    (doublePass uscore 0 (doublePass star 0 (italicPass uscore 0 none
      (italicPass star 0 none (goCodeBlock (goInlineCode none s.data))))))
  have h8 := len_escapeSpoiler
    (goStrike (doublePass uscore 0 (doublePass star 0 (italicPass uscore 0 none
      (italicPass star 0 none (goCodeBlock (goInlineCode none s.data)))))))
  simp only [escapeMarkdown, escapeMarkdownList, escapeMarkdownInlineLayer,
    escapeMarkdownPasses, defaultOptions, escapeInlineCode, escapeCodeBlock, escapeItalic,
    escapeBold, escapeUnderline, escapeStrikethrough, if_true, String.length] at *
  omega

/-- C1 counterexample: the escape transform is not idempotent — already on
the empty string, one application yields the escaped spoiler marker and a
second application escapes it again. -/
theorem c1_counterexample :
    escapeMarkdown defaultOptions (escapeMarkdown defaultOptions "") ≠
      escapeMarkdown defaultOptions "" := by decide

/-- C1 (amended): the markdown escape transform is never idempotent under
the default marker set: because the spoiler pass's regex (built from the
unescaped pattern `'||'`) matches the empty string at every position,
every application strictly lengthens the text, so for every input string
`escapeMarkdown(escapeMarkdown(s)) ≠ escapeMarkdown(s)`. -/
theorem c1_amended (s : String) :
    escapeMarkdown defaultOptions (escapeMarkdown defaultOptions s) ≠
      escapeMarkdown defaultOptions s := by
  intro h
  have h1 := escapeMarkdown_default_length (escapeMarkdown defaultOptions s)
  have h2 := congrArg String.length h
  omega

/-! ## Helper lemmas: decimal digits and time-code components -/

theorem digitVal_digitChar (n : Nat) (h : n < 10) : digitVal (digitChar n) = some n := by
  interval_cases n <;> decide

theorem digit_mem_natDigits (n : Nat) : ∀ c ∈ natDigits n, (digitVal c).isSome := by
  induction n using natDigits.induct with
  | case1 n h =>
    intro c hc
    rw [natDigits, if_pos h] at hc
    simp only [List.mem_singleton] at hc
    subst hc
    simp [digitVal_digitChar n h]
  | case2 n h ih =>
    intro c hc
    rw [natDigits, if_neg h] at hc
    rcases List.mem_append.mp hc with h1 | h1
    · exact ih c h1
    · simp only [List.mem_singleton] at h1
      subst h1
      simp [digitVal_digitChar (n % 10) (Nat.mod_lt n (by omega))]

theorem natDigits_ne_nil (n : Nat) : natDigits n ≠ [] := by
  rw [natDigits]
  split <;> simp

theorem parseDigitsGo_append (xs ys : List Char) (acc : Nat)
    (h : ∀ c ∈ xs, (digitVal c).isSome) :
    parseDigitsGo acc (xs ++ ys) = parseDigitsGo (parseDigitsGo acc xs) ys := by
  induction xs generalizing acc with
  | nil => simp [parseDigitsGo]
  | cons c rest ih =>
    have hc := h c (by simp)
    obtain ⟨d, hd⟩ := Option.isSome_iff_exists.mp hc
    simp only [List.cons_append, parseDigitsGo, hd]
    exact ih (acc * 10 + d) (fun x hx => h x (by simp [hx]))

theorem parseDigitsGo_natDigits (n : Nat) : parseDigitsGo 0 (natDigits n) = n := by
  induction n using natDigits.induct with
  | case1 n h =>
    rw [natDigits, if_pos h]
    simp [parseDigitsGo, digitVal_digitChar n h]
  | case2 n h ih =>
    rw [natDigits, if_neg h,
      parseDigitsGo_append _ _ _ (digit_mem_natDigits (n / 10)), ih]
    simp only [parseDigitsGo, digitVal_digitChar (n % 10) (Nat.mod_lt n (by omega))]
    omega

theorem parseIntJS_natDigits (n : Nat) : parseIntJS (natDigits n) = some n := by
  rcases hnd : natDigits n with _ | ⟨c, rest⟩
  · exact absurd hnd (natDigits_ne_nil n)
  · have hc : (digitVal c).isSome := digit_mem_natDigits n c (by rw [hnd]; simp)
    have := parseDigitsGo_natDigits n
    rw [hnd] at this
    simp [parseIntJS, hc, this]

theorem parseIntJS_pad2 (n : Nat) : parseIntJS (pad2 n) = some n := by
  rw [pad2]
  split
  · have h0 : digitVal (digitChar 0) = some 0 := by decide
    simp only [parseIntJS, h0, Option.isSome_some, if_pos]
    simp only [parseDigitsGo, h0]
    rw [show 0 * 10 + 0 = 0 by omega, parseDigitsGo_natDigits]
  · exact parseIntJS_natDigits n

theorem digit_ne_colon (c : Char) (h : (digitVal c).isSome) : c ≠ colonCh := by
  intro he
  subst he
  simp [digitVal, colonCh] at h

theorem colon_not_mem_natDigits (n : Nat) : colonCh ∉ natDigits n := by
  intro h
  exact absurd rfl (digit_ne_colon colonCh (digit_mem_natDigits n colonCh h))

theorem colon_not_mem_pad2 (n : Nat) : colonCh ∉ pad2 n := by
  intro h
  rw [pad2] at h
  have : (digitVal colonCh).isSome := by
    rcases (by split at h <;> simp_all : colonCh = digitChar 0 ∨ colonCh ∈ natDigits n) with h1 | h1
    · rw [h1]; decide
    · exact digit_mem_natDigits n colonCh h1
  exact absurd rfl (digit_ne_colon colonCh this)

theorem splitCh_of_not_mem (sep : Char) (xs : List Char) (h : sep ∉ xs) :
    splitCh sep xs = [xs] := by
  induction xs with
  | nil => simp [splitCh]
  | cons c rest ih =>
    have hc : ¬ c = sep := fun he => h (by simp [he])
    rw [splitCh, if_neg hc, ih (fun hm => h (by simp [hm]))]

theorem splitCh_append (sep : Char) (xs ys : List Char) (h : sep ∉ xs) :
    splitCh sep (xs ++ sep :: ys) = xs :: splitCh sep ys := by
  induction xs with
  | nil => simp [splitCh]
  | cons c rest ih =>
    have hc : ¬ c = sep := fun he => h (by simp [he])
    rw [List.cons_append, splitCh, if_neg hc, ih (fun hm => h (by simp [hm]))]

/-- C2: for every whole-second millisecond value — exactly the values the
`H:MM:SS` text formatter can represent — parsing the formatted text with
`Track.durationMS` returns the original value: the text-to-milliseconds
conversion inverts the milliseconds-to-text conversion. -/
theorem c2_duration_roundtrip (ms : Nat) (h : 1000 ∣ ms) :
    durationMS (formatDurationMS ms) = some ms := by
  obtain ⟨k, rfl⟩ := h
  simp only [formatDurationMS, durationMS]
  rw [show 1000 * k / 1000 = k by omega]
  rw [splitCh_append colonCh _ _ (colon_not_mem_natDigits _),
    splitCh_append colonCh _ _ (colon_not_mem_pad2 _),
    splitCh_of_not_mem colonCh _ (colon_not_mem_pad2 _)]
  simp only [List.reverse_cons, List.reverse_nil, List.nil_append, List.cons_append,
    List.append_assoc, List.singleton_append]
  simp only [sumTimes, parseIntJS_pad2, parseIntJS_natDigits, times]
  norm_num
  omega

/-- Witness for C2 at 1 hour, 2 minutes, 3 seconds. -/
theorem c2_witness :
    (1000 ∣ 3723000) ∧ durationMS (formatDurationMS 3723000) = some 3723000 :=
  ⟨by norm_num, c2_duration_roundtrip 3723000 (by norm_num)⟩

/-! ## Helper lemmas: the extractor chain -/

theorem chainSearchTr_block (q : String) (exts : List ExtractorModel) :
    chainSearchTr q true exts = (none, []) := by
  cases exts <;> simp [chainSearchTr]

theorem not_chainSucceeds_iff (q : String) (e : ExtractorModel) :
    ¬ chainSucceeds q e ↔ (e.validate q = false ∨ dataLen (e.handle q) = 0) := by
  unfold chainSucceeds
  rcases h : e.validate q <;> simp [h]

theorem handledNames_cons (q : String) (e : ExtractorModel) (rest : List ExtractorModel) :
    handledNames q (e :: rest) =
      if e.validate q then e.name :: handledNames q rest else handledNames q rest := by
  simp only [handledNames, List.filter_cons]
  split <;> simp_all

theorem chainSearchTr_all_fail (q : String) (exts : List ExtractorModel)
    (h : ∀ x ∈ exts, ¬ chainSucceeds q x) :
    chainSearchTr q false exts = (none, handledNames q exts) := by
  induction exts with
  | nil => simp [chainSearchTr, handledNames]
  | cons e rest ih =>
    have hrest := ih (fun x hx => h x (by simp [hx]))
    have he := (not_chainSucceeds_iff q e).mp (h e (by simp))
    rw [handledNames_cons]
    by_cases hv : e.validate q
    · have hlen : dataLen (e.handle q) = 0 := by
        rcases he with h1 | h1
        · rw [hv] at h1; cases h1
        · exact h1
      cases hh : e.handle q with
      | none => simp [chainSearchTr, hv, hh, hrest]
      | some d =>
        have hd : d.data.length = 0 := by simpa [dataLen, hh] using hlen
        simp [chainSearchTr, hv, hh, hd, hrest]
    · simp [chainSearchTr, hv, hrest]

theorem chainSearchTr_first (q : String) (pre post : List ExtractorModel) (e : ExtractorModel)
    (hpre : ∀ x ∈ pre, ¬ chainSucceeds q x) (he : chainSucceeds q e) :
    chainSearchTr q false (pre ++ e :: post) =
      (some (dataOf q e), handledNames q pre ++ [e.name]) := by
  induction pre with
  | nil =>
    obtain ⟨hv, hlen⟩ := he
    cases hh : e.handle q with
    | none => simp [dataLen, hh] at hlen
    | some d =>
      have hd : d.data.length ≠ 0 := by simpa [dataLen, hh] using hlen
      simp [chainSearchTr, hv, hh, hd, dataOf, handledNames]
  | cons x pre ih =>
    have hrest := ih (fun y hy => hpre y (by simp [hy]))
    have hx := (not_chainSucceeds_iff q x).mp (hpre x (by simp))
    rw [List.cons_append, handledNames_cons]
    by_cases hv : x.validate q
    · have hlen : dataLen (x.handle q) = 0 := by
        rcases hx with h1 | h1
        · rw [hv] at h1; cases h1
        · exact h1
      cases hh : x.handle q with
      | none => simp [chainSearchTr, hv, hh, hrest]
      | some d =>
        have hd : d.data.length = 0 := by simpa [dataLen, hh] using hlen
        simp [chainSearchTr, hv, hh, hd, hrest]
    · simp [chainSearchTr, hv, hrest]

theorem find?_none_of_names (exts : List ExtractorModel) (s : String)
    (h : ∀ x ∈ exts, x.name ≠ s) :
    exts.find? (fun e => e.name == s) = none := by
  rw [List.find?_eq_none]
  intro x hx
  simpa using h x hx

/-- C3: with no explicitly named resolver and chain fallback not blocked,
`search` returns the result built from the first registered extractor that
validates the query and resolves a non-empty list, invoking `handle` only
on the validating extractors before it and on it — the extractors after
the first success are never invoked, and failing or empty extractors
contribute nothing to the returned result. -/
theorem c3_chain_order (pre post : List ExtractorModel) (e : ExtractorModel)
    (q : String) (opts : SearchOptions) (env : SearchEnv)
    (hnamed : ∀ x ∈ pre ++ e :: post, x.name ≠ opts.searchEngine)
    (hblock : opts.blockExtractor = false)
    (hpre : ∀ x ∈ pre, ¬ chainSucceeds q x)
    (he : chainSucceeds q e) :
    searchTr (pre ++ e :: post) q opts env =
      (buildChainResult (dataOf q e), handledNames q pre ++ [e.name]) := by
  rw [searchTr, find?_none_of_names _ _ hnamed, searchAfterNamed, hblock,
    chainSearchTr_first q pre post e hpre he]
  simp

/-- Witness for C3 at the spec's own test: `extEmpty` (matches, empty) and
`extTwo` (matches, two tracks) registered in that order. -/
theorem c3_witness :
    ((∀ x ∈ [extEmpty] ++ extTwo :: [], x.name ≠ "auto") ∧
      (⟨"auto", false⟩ : SearchOptions).blockExtractor = false ∧
      (∀ x ∈ [extEmpty], ¬ chainSucceeds "q" x) ∧ chainSucceeds "q" extTwo) ∧
    searchTr ([extEmpty] ++ extTwo :: []) "q" ⟨"auto", false⟩ envNone =
      (buildChainResult (dataOf "q" extTwo), handledNames "q" [extEmpty] ++ [extTwo.name]) :=
  ⟨⟨by decide, rfl, by decide, by decide⟩,
    c3_chain_order [extEmpty] [] extTwo "q" ⟨"auto", false⟩ envNone
      (by decide) rfl (by decide) (by decide)⟩

/-- C4 counterexample: resolvers `extEmpty` (named in the options; matches
but resolves an empty list) and `extOne` registered; naming `extEmpty`
does not prevent other resolvers from being consulted — `extOne.handle`
is invoked (and `extEmpty` is invoked twice). -/
theorem c4_counterexample :
    extOne.name ∈ (searchTr [extEmpty, extOne] "q" ⟨"extEmpty", false⟩ envNone).2 ∧
    (searchTr [extEmpty, extOne] "q" ⟨"extEmpty", false⟩ envNone).2 =
      ["extEmpty", "extEmpty", "extOne"] := by decide

/-- C4 (amended): if the named resolver's `matches`/`validate` check
fails, `search` returns `{ playlist: null, tracks: [] }` with no resolver
invoked and no error; but if the named resolver's result is null or
empty, `search` falls through to the full registration-order chain, so
other resolvers (and the named one again) are consulted. -/
theorem c4_amended (exts : List ExtractorModel) (q : String) (opts : SearchOptions)
    (env : SearchEnv) (e : ExtractorModel)
    (hfind : exts.find? (fun x => x.name == opts.searchEngine) = some e) :
    (e.validate q = false → searchTr exts q opts env = (emptyResult, [])) ∧
    (∀ pre s post, e.validate q = true → dataLen (e.handle q) = 0 →
      exts = pre ++ s :: post → opts.blockExtractor = false →
      (∀ x ∈ pre, ¬ chainSucceeds q x) → chainSucceeds q s →
      searchTr exts q opts env =
        (buildChainResult (dataOf q s), e.name :: (handledNames q pre ++ [s.name]))) := by
  constructor
  · intro hv
    rw [searchTr, hfind]
    simp [hv]
  · intro pre s post hv hlen heq hblock hpre hs
    subst heq
    rw [searchTr, hfind]
    simp only [hv, if_true]
    cases hh : e.handle q with
    | none =>
      simp only [searchAfterNamed, hblock, chainSearchTr_first q pre post s hpre hs]
      simp
    | some d =>
      have hd : d.data.length = 0 := by simpa [dataLen, hh] using hlen
      simp only [hd, ne_eq, not_true_eq_false, if_false,
        searchAfterNamed, hblock, chainSearchTr_first q pre post s hpre hs]
      simp

/-- Witness for the amended C4. -/
theorem c4_amended_witness :
    (([extEmpty, extOne].find? (fun x => x.name == "extEmpty") = some extEmpty) ∧
      extEmpty.validate "q" = true ∧ dataLen (extEmpty.handle "q") = 0 ∧
      (∀ x ∈ [extEmpty], ¬ chainSucceeds "q" x) ∧ chainSucceeds "q" extOne) ∧
    searchTr [extEmpty, extOne] "q" ⟨"extEmpty", false⟩ envNone =
      (buildChainResult (dataOf "q" extOne),
        extEmpty.name :: (handledNames "q" [extEmpty] ++ [extOne.name])) :=
  ⟨⟨rfl, by decide, by decide, by decide, by decide⟩,
    (c4_amended [extEmpty, extOne] "q" ⟨"extEmpty", false⟩ envNone extEmpty rfl).2
      [extEmpty] extOne [] (by decide) (by decide) rfl rfl (by decide) (by decide)⟩

/-- C5 counterexample: one resolver `extTwo` (matches, two tracks)
registered and `blockExtractor` set; the claim says it is still attempted
once and its result ends the phase, but the loop breaks before touching
it: no resolver is invoked (empty log) and the failing built-in handlers
yield the empty result rather than `extTwo`'s non-empty track list. -/
theorem c5_counterexample :
    searchTr [extTwo] "q" ⟨"auto", true⟩ envNone = (emptyResult, []) ∧
    (buildChainResult (dataOf "q" extTwo)).tracks ≠ [] := by decide

/-- C5 (amended): when `blockExtractor` is set (and no resolver is
explicitly named), the registered-resolver phase is skipped entirely —
no resolver is invoked, not even the first matching one — and `search`
proceeds directly to the built-in handlers of the resolved query type. -/
theorem c5_amended (exts : List ExtractorModel) (q : String) (opts : SearchOptions)
    (env : SearchEnv)
    (hnamed : ∀ x ∈ exts, x.name ≠ opts.searchEngine)
    (hblock : opts.blockExtractor = true) :
    searchTr exts q opts env =
      (fallbackSearch env q (qtResolved opts.searchEngine env q), []) := by
  rw [searchTr, find?_none_of_names _ _ hnamed, searchAfterNamed, hblock, chainSearchTr_block]
  simp

/-- Witness for the amended C5. -/
theorem c5_witness :
    ((∀ x ∈ [extTwo], x.name ≠ "auto") ∧
      (⟨"auto", true⟩ : SearchOptions).blockExtractor = true) ∧
    searchTr [extTwo] "q" ⟨"auto", true⟩ envNone =
      (fallbackSearch envNone "q" (qtResolved "auto" envNone "q"), []) :=
  ⟨⟨by decide, rfl⟩, c5_amended [extTwo] "q" ⟨"auto", true⟩ envNone (by decide) rfl⟩

theorem fallbackSearch_fail (env : SearchEnv) (q : String) (qt : String)
    (h : builtinFails env q qt) : fallbackSearch env q qt = emptyResult := by
  have hqts : QueryType.YOUTUBE_VIDEO = "youtube_video" ∧
      QueryType.YOUTUBE_SEARCH = "youtube_search" ∧
      QueryType.YOUTUBE_PLAYLIST = "youtube_playlist" ∧
      QueryType.SOUNDCLOUD_TRACK = "soundcloud_track" ∧
      QueryType.SOUNDCLOUD_SEARCH = "soundcloud_search" ∧
      QueryType.SOUNDCLOUD_PLAYLIST = "soundcloud_playlist" ∧
      QueryType.SPOTIFY_SONG = "spotify_song" ∧
      QueryType.SPOTIFY_ALBUM = "spotify_album" ∧
      QueryType.SPOTIFY_PLAYLIST = "spotify_playlist" := by
    refine ⟨rfl, rfl, rfl, rfl, rfl, rfl, rfl, rfl, rfl⟩
  obtain ⟨e1, e2, e3, e4, e5, e6, e7, e8, e9⟩ := hqts
  rcases h with ⟨h1, h2⟩ | ⟨h1, h2⟩ | ⟨h1, h2⟩ | ⟨h1, h2⟩ | ⟨h1, h2⟩ | ⟨h1, h2⟩ | ⟨h1, h2⟩
  · subst h1; simp [fallbackSearch, h2, e1, e2, e3, e4, e5, e6, e7, e8, e9]
  · subst h1; simp [fallbackSearch, h2, e1, e2, e3, e4, e5, e6, e7, e8, e9]
  · rcases h1 with h1 | h1 <;> subst h1 <;>
      by_cases hr : env.resolveQuery q = QueryType.SOUNDCLOUD_TRACK
    · rw [if_pos hr] at h2
      simp [fallbackSearch, hr, h2, emptyResult, e1, e2, e3, e4, e5, e6, e7, e8, e9]
    · rw [if_neg hr] at h2
      rw [e4] at hr
      simp [fallbackSearch, hr, h2, emptyResult, e1, e2, e3, e4, e5, e6, e7, e8, e9]
    · rw [if_pos hr] at h2
      simp [fallbackSearch, hr, h2, emptyResult, e1, e2, e3, e4, e5, e6, e7, e8, e9]
    · rw [if_neg hr] at h2
      rw [e4] at hr
      simp [fallbackSearch, hr, h2, emptyResult, e1, e2, e3, e4, e5, e6, e7, e8, e9]
  · subst h1; simp [fallbackSearch, h2, e1, e2, e3, e4, e5, e6, e7, e8, e9]
  · rcases h1 with h1 | h1 <;> subst h1 <;>
      simp [fallbackSearch, h2, e1, e2, e3, e4, e5, e6, e7, e8, e9]
  · subst h1; simp [fallbackSearch, h2, e1, e2, e3, e4, e5, e6, e7, e8, e9]
  · subst h1; simp [fallbackSearch, h2, e1, e2, e3, e4, e5, e6, e7, e8, e9]

/-- C7: when no resolver is named, the chain produces nothing, and the
built-in branch selected for the query type suffers a network failure,
`search` absorbs the failure and returns `{ playlist: null, tracks: [] }`
— the model of `search` is a total function into `PlayerSearchResult`,
so no raw error can propagate past the resolver boundary. -/
theorem c7_builtin_absorbs (exts : List ExtractorModel) (q : String) (opts : SearchOptions)
    (env : SearchEnv)
    (hnamed : ∀ x ∈ exts, x.name ≠ opts.searchEngine)
    (hblock : opts.blockExtractor = false)
    (hfail : ∀ x ∈ exts, ¬ chainSucceeds q x)
    (hqt : builtinFails env q (qtResolved opts.searchEngine env q)) :
    searchTr exts q opts env = (emptyResult, handledNames q exts) := by
  rw [searchTr, find?_none_of_names _ _ hnamed, searchAfterNamed, hblock,
    chainSearchTr_all_fail q exts hfail]
  simp [fallbackSearch_fail env q _ hqt]

/-- Witness for C7: a single-video query whose `ytdl.getInfo` call fails. -/
theorem c7_witness :
    (builtinFails envNone "q" (qtResolved "youtube_video" envNone "q")) ∧
    searchTr [] "q" ⟨"youtube_video", false⟩ envNone = (emptyResult, handledNames "q" []) :=
  ⟨by decide,
    c7_builtin_absorbs [] "q" ⟨"youtube_video", false⟩ envNone
      (by decide) rfl (by decide) (by decide)⟩

/-! ## Helper lemma: collection update -/

theorem lookupEntry_setEntry {α : Type} (k : String) (v : α) (l : List (String × α)) :
    lookupEntry k (setEntry k v l) = some v := by
  induction l with
  | nil => simp [setEntry, lookupEntry]
  | cons p rest ih =>
    by_cases h : p.1 == k
    · simp [setEntry, h, lookupEntry]
    · simp [setEntry, h, lookupEntry, ih]

/-- C6 counterexample: with `dispatcher0` already cached for `"ch"`,
`connect` still requests a transport connection (call log `["ch"]`),
returns a freshly constructed dispatcher (id 7, not `dispatcher0`), and
replaces the cache entry for `"ch"`. -/
theorem c6_counterexample :
    VoiceUtils.connect voiceState0 "ch" (some joinOptions0) =
      (Except.ok ((⟨⟨"ch", false, 5⟩, none, 7⟩ : StreamDispatcher),
        (⟨[("ch", ⟨⟨"ch", false, 5⟩, none, 7⟩)], 6, 8⟩ : VoiceUtilsState)), ["ch"]) ∧
    (⟨⟨"ch", false, 5⟩, none, 7⟩ : StreamDispatcher) ≠ dispatcher0 ∧
    lookupEntry "ch" [("ch", (⟨⟨"ch", false, 5⟩, none, 7⟩ : StreamDispatcher))] ≠
      some dispatcher0 :=
  ⟨rfl, by decide, by decide⟩

/-- C6 (amended): `connect` never returns a cached dispatcher; it always
requests a new transport connection, constructs a fresh `StreamDispatcher`
around it (distinct from every cached one) and overwrites the cache entry
for the destination key with it. -/
theorem c6_amended (st : VoiceUtilsState) (ch : String) (o : JoinOptions)
    (h : ∀ p ∈ st.cache, p.2.dispId < st.nextDispId) :
    ∃ sub st1,
      (VoiceUtils.connect st ch (some o)).1 = Except.ok (sub, st1) ∧
      (VoiceUtils.connect st ch (some o)).2 = [ch] ∧
      sub.dispId = st.nextDispId ∧
      (∀ p ∈ st.cache, p.2 ≠ sub) ∧
      lookupEntry ch st1.cache = some sub := by
  refine ⟨_, _, rfl, rfl, rfl, ?_, ?_⟩
  · intro p hp hne
    have hlt := h p hp
    rw [hne] at hlt
    simp at hlt
  · exact lookupEntry_setEntry ch _ st.cache

/-- Witness for the amended C6. -/
theorem c6_witness :
    (∀ p ∈ voiceState0.cache, p.2.dispId < voiceState0.nextDispId) ∧
    (∃ sub st1,
      (VoiceUtils.connect voiceState0 "ch" (some joinOptions0)).1 = Except.ok (sub, st1) ∧
      (VoiceUtils.connect voiceState0 "ch" (some joinOptions0)).2 = ["ch"] ∧
      sub.dispId = voiceState0.nextDispId ∧
      (∀ p ∈ voiceState0.cache, p.2 ≠ sub) ∧
      lookupEntry "ch" st1.cache = some sub) :=
  ⟨by decide, c6_amended voiceState0 "ch" joinOptions0 (by decide)⟩

/-- C8: `createQueue` is idempotent per destination key — a second call,
with any options, returns exactly the pair produced by the first call:
the same `Queue` instance, no new queue allocated (the freshness counter
is unchanged), the session table untouched and the second call's options
without effect. -/
theorem c8_createQueue_idempotent (st : PlayerState) (g : String) (o1 o2 : PlayerOptions) :
    createQueue (createQueue st g o1).2 g o2 = createQueue st g o1 := by
  cases h : lookupEntry g st.queues with
  | some q => simp [createQueue, h]
  | none => simp [createQueue, h, lookupEntry_setEntry]

/-- C9: emitting a required event (`error` / `connectionError`) with zero
registered listeners logs the arguments to the console, emits a process
warning naming the event, and returns `false` without dispatching through
the emitter; every other emission goes through the standard emitter,
returning whether the event had listeners. -/
theorem c9_emit_required_guard (eventNames : List String) (ev : String) (args : List String) :
    (ev ∈ requiredEvents → ev ∉ eventNames →
      Player.emit eventNames ev args =
        ⟨false, [args], [unhandledWarning ev], false⟩) ∧
    ((ev ∉ requiredEvents ∨ ev ∈ eventNames) →
      Player.emit eventNames ev args = ⟨eventNames.contains ev, [], [], true⟩) := by
  constructor
  · intro h1 h2
    rw [Player.emit, if_pos]
    constructor
    · exact List.elem_eq_true_of_mem h1
    · intro hc
      exact h2 (List.mem_of_elem_eq_true hc)
  · intro h
    rw [Player.emit, if_neg]
    rcases h with h | h
    · intro hc
      exact h (List.mem_of_elem_eq_true hc.1)
    · intro hc
      exact hc.2 (List.elem_eq_true_of_mem h)

/-- Witness for C9: an `error` event emitted with no listeners at all. -/
theorem c9_witness :
    ("error" ∈ requiredEvents ∧ "error" ∉ ([] : List String)) ∧
    Player.emit [] "error" ["boom"] =
      ⟨false, [["boom"]], [unhandledWarning "error"], false⟩ :=
  ⟨⟨by decide, by decide⟩,
    (c9_emit_required_guard [] "error" ["boom"]).1 (by decide) (by decide)⟩

/-- C10: calling `join` or `connect` with the options argument omitted
throws (a `TypeError` from reading `options.deaf` / `options.maxTime` on
`undefined`) before any transport connection is requested (empty call
log); every call that supplies an options object does not throw. -/
theorem c10_options_undefined_throws (st : VoiceUtilsState) (ch : String) :
    (throws (VoiceUtils.join st ch none).1 = true ∧ (VoiceUtils.join st ch none).2 = []) ∧
    (throws (VoiceUtils.connect st ch none).1 = true ∧
      (VoiceUtils.connect st ch none).2 = []) ∧
    (∀ o : JoinOptions,
      throws (VoiceUtils.join st ch (some o)).1 = false ∧
      throws (VoiceUtils.connect st ch (some o)).1 = false) :=
  ⟨⟨rfl, rfl⟩, ⟨rfl, rfl⟩, fun _ => ⟨rfl, rfl⟩⟩

end DiscordPlayer
